import Mathlib

/-!
Shallow embedding of `src/detect-window.c` (the Suricata `window` rule
keyword: option parsing, per-packet matching, and signature setup).

The C file depends on a few declarations that live in headers not present
under `src/` (`detect-window.h`, `decode.h`, `detect.h`); those are modelled
from the spec where indicated.  Everything else is translated directly from
the C source.
-/

namespace Suricata

/-- Modelled from the spec: `MAX_WINDOW_VALUE` is defined in `detect-window.h`,
which is not under `src/`.  The spec fixes it as "the maximum value
representable in the transport field being compared (65535 for a 16-bit TCP
window)". -/
def MAX_WINDOW_VALUE : Nat := 65535

/-- Modelled from the spec: `DetectWindowData` is declared in
`detect-window.h`, which is not under `src/`.  Per the spec, `threshold`
(called `size` in the C code) is an unsigned integer and `negated` a
boolean flag stored as a small unsigned integer (the C code assigns it the
literals `0` and `1`).  `size` is modelled as `Nat`: the module's own unit
test `DetectWindowTestParse04` requires `DetectWindowParse("1235402")` to
fail the `size > MAX_WINDOW_VALUE` check, so the field does not truncate a
nine-digit `atoi` result. -/
structure DetectWindowData where
  negated : Nat
  size : Nat
deriving DecidableEq, Repr

/-- Decoded packet, the read-only view the evaluator consumes
(`PKT_IS_TCP(p)` and `TCP_GET_WINDOW(p)` from `decode.h`, modelled from the
spec's decoded-packet accessors `isTcp` / `tcpWindow`).  `rest` stands for
all the other decoded fields, which this module never reads. -/
structure Packet where
  isTcp : Bool
  tcpWindow : Nat
  rest : List Nat
deriving DecidableEq, Repr

/-- Generic per-rule match node (`SigMatch` from `detect.h`, modelled from
the spec's "generic predicate-node shape { kind, opaquePredicate }").
`ctx` is the opaque predicate pointer, nullable, holding a
`DetectWindowData` when the node belongs to the window keyword. -/
structure SigMatch where
  type : Nat
  ctx : Option DetectWindowData
deriving DecidableEq, Repr

/-- Rule/signature container (modelled from the spec: an ordered list of
predicate nodes with an append operation). -/
structure Signature where
  sid : Nat
  sigMatches : List SigMatch
deriving DecidableEq, Repr

/-- Thread vars argument of the match function; its contents are never read
by this module. -/
structure ThreadVars where
  tvId : Nat
deriving DecidableEq, Repr

/-- Detection-engine thread context argument of the match function; its
contents are never read by this module. -/
structure DetectEngineThreadCtx where
  ctxId : Nat
deriving DecidableEq, Repr

/-- Detection-engine context argument of the setup function; its contents
are never read by this module. -/
structure DetectEngineCtx where
  deId : Nat
deriving DecidableEq, Repr

/-- Modelled from the spec: `DETECT_WINDOW` is the keyword registry type tag
(an enum constant from `detect.h`, not under `src/`; its numeric value is
immaterial to this module). -/
def DETECT_WINDOW : Nat := 0

/-- The character class `[0-9]` of the parse regex: ASCII codes 48..57. -/
def isDigitChar (c : Char) : Bool :=
  decide (48 ≤ c.toNat ∧ c.toNat ≤ 57)

/-- PCRE's default `\s` character class (as in the PCRE 7.x library this
code links against): space (32), horizontal tab (9), line feed (10), form
feed (12) and carriage return (13). -/
def isPcreSpace (c : Char) : Bool :=
  decide (c.toNat = 32 ∨ c.toNat = 9 ∨ c.toNat = 10 ∨ c.toNat = 12 ∨ c.toNat = 13)

/-- Whitespace as the spec's grammar narrates it: "ws := space character". -/
def isSpaceOnly (c : Char) : Bool :=
  decide (c.toNat = 32)

/-- The optional negation group `([!])?` of the parse regex: consume a
leading `!` if present, returning (captured group, remaining input).  A
non-participating group yields the empty capture, which is what
`pcre_get_substring` hands the C code for an unset group. -/
def stripNeg (l : List Char) : List Char × List Char :=
  match l with
  | c :: rest => if c = '!' then (['!'], rest) else ([], l)
  | [] => ([], [])

/-- Capture groups of a successful regex match: group 1 (`[!]` or empty)
and group 2 (the digit run). -/
structure RegexCaptures where
  neg : List Char
  digits : List Char
deriving DecidableEq, Repr

/-- Deterministic anchored matcher for `ws* ([!])? ws* ([0-9]{1,9}+) ws* $`,
parameterized by the whitespace class `ws`.

Determinism loses nothing: the classes `ws`, `{'!'}` and `[0-9]` are
pairwise disjoint (for both whitespace classes used below), so every
quantifier's extent is forced.  The digit group's possessive `{1,9}+`
takes the whole digit run up to nine characters and never gives characters
back; a run of ten or more digits therefore fails (after nine digits the
trailing `ws* $` faces another digit), which the test
`run.length ≤ 9` on the full run expresses.  Backtracking over `([!])?`
(skipping a present `!`) can never turn a failure into a match, because no
other grammar atom accepts `!`. -/
def matchWindowOpt (ws : Char → Bool) (l : List Char) : Option RegexCaptures :=
  let s1 := l.dropWhile ws
  let neg := (stripNeg s1).1
  let s3 := (stripNeg s1).2.dropWhile ws
  let run := s3.takeWhile isDigitChar
  if 1 ≤ run.length ∧ run.length ≤ 9 ∧ (s3.drop run.length).dropWhile ws = [] then
    some ⟨neg, run⟩
  else none

/-- `pcre_exec` of the compiled `PARSE_REGEX`
`^\s*([!])?\s*([0-9]{1,9}+)\s*$` on the whole option string: `none` models
a return of `PCRE_ERROR_NOMATCH`; `some` models the return value 3
(both capture groups resolved, group 1 possibly unset/empty). -/
def pcreExecWindow (l : List Char) : Option RegexCaptures :=
  matchWindowOpt isPcreSpace l

/-- The spec's grammar `window-option := ws* negation? ws* digits ws*`
with `negation := "!"` and `digits := [0-9]{1,9}`, parameterized by the
whitespace class, as a decidable acceptor.  Because `ws`, `!` and the
digits are disjoint character classes, deterministic maximal-munch
matching coincides with grammar membership (a digit run longer than nine
characters is rejected either way: the grammar's `digits` can take at most
nine, and the leftover digit fits no following atom). -/
def specGrammarAccepts (ws : Char → Bool) (l : List Char) : Bool :=
  (matchWindowOpt ws l).isSome

/-- `atoi` on the captured digit run (1..9 decimal digits, so the value is
at most 999999999 and the `int` conversion is exact). -/
def digitsVal (l : List Char) : Nat :=
  l.foldl (fun acc c => acc * 10 + (c.toNat - 48)) 0

/-- `DetectWindowParse` from `src/detect-window.c` on the option string as
a character list.  `none` models the NULL return of every error path (no
regex match; parsed size above `MAX_WINDOW_VALUE`); heap-exhaustion paths
(`malloc`/`pcre_get_substring` failure) are not modelled.  On the success
path the C code sets `negated` to 1 iff the first character of capture
group 1 is `!` (an unset group reads as the empty string, whose first
character is NUL), and `size` to `atoi` of capture group 2, rejecting
sizes above `MAX_WINDOW_VALUE`. -/
def DetectWindowParseChars (windowstr : List Char) : Option DetectWindowData :=
  match pcreExecWindow windowstr with
  | none => none
  | some caps =>
    let negated : Nat := if caps.neg.head? = some '!' then 1 else 0
    let size : Nat := digitsVal caps.digits
    if size > MAX_WINDOW_VALUE then none
    else some { negated := negated, size := size }

/-- `DetectWindowParse` on a Lean string. -/
def DetectWindowParse (windowstr : String) : Option DetectWindowData :=
  DetectWindowParseChars windowstr.data

/-- `DetectWindowMatch` from `src/detect-window.c`: returns 1 (match) or 0
(no match).  A NULL `m->ctx` yields 0; a non-TCP packet yields 0; otherwise
the window comparison decides, honouring negation.  The thread vars,
detection-engine thread context and signature arguments are accepted (as
nullable pointers) and never read, exactly as in the C code. -/
def DetectWindowMatch (t : Option ThreadVars) (det_ctx : Option DetectEngineThreadCtx)
    (p : Packet) (s : Option Signature) (m : SigMatch) : Nat :=
  match m.ctx with
  | none => 0
  | some wd =>
    if p.isTcp = false then 0
    else if (wd.negated = 0 ∧ wd.size = p.tcpWindow) ∨ (wd.negated ≠ 0 ∧ wd.size ≠ p.tcpWindow)
    then 1
    else 0

/-- Modelled from the spec: `SigMatchAppend` (from `detect.h`, not under
`src/`) appends the node to the rule's predicate sequence, preserving
declaration order. -/
def SigMatchAppend (s : Signature) (sm : SigMatch) : Signature :=
  { s with sigMatches := s.sigMatches ++ [sm] }

/-- `DetectWindowSetup` from `src/detect-window.c`: parse the option text;
on parse failure return -1 with the signature untouched; on success wrap
the predicate in a `SigMatch` node tagged `DETECT_WINDOW` and append it to
the signature, returning 0.  The resulting signature is returned
explicitly in place of the C code's in-place mutation; node-allocation
failure (`SigMatchAlloc` returning NULL) is not modelled.  The `m`
argument (insertion cursor) is accepted and, as on the C error path,
never dereferenced. -/
def DetectWindowSetup (de_ctx : Option DetectEngineCtx) (s : Signature)
    (m : Option SigMatch) (windowstr : List Char) : Signature × Int :=
  match DetectWindowParseChars windowstr with
  | none => (s, -1)
  | some wd => (SigMatchAppend s { type := DETECT_WINDOW, ctx := some wd }, 0)

/-! ## Helper lemmas about the regex matcher -/

theorem isDigitChar_toNat {c : Char} (h : isDigitChar c = true) :
    48 ≤ c.toNat ∧ c.toNat ≤ 57 := by
  simpa [isDigitChar] using h

theorem isPcreSpace_eq_false_of_isDigitChar {c : Char} (h : isDigitChar c = true) :
    isPcreSpace c = false := by
  have h' := isDigitChar_toNat h
  simp only [isPcreSpace, decide_eq_false_iff_not]
  omega

theorem ne_bang_of_isDigitChar {c : Char} (h : isDigitChar c = true) : ¬ c = '!' := by
  intro hc
  subst hc
  exact absurd h (by decide)

/-- A nonempty run of one to nine digits (and nothing else) is accepted by
the matcher, for any whitespace class disjoint from the digits, with an
empty negation capture. -/
theorem matchWindowOpt_digit_run (ws : Char → Bool)
    (hws : ∀ c, isDigitChar c = true → ws c = false)
    (l : List Char) (hd : ∀ c ∈ l, isDigitChar c = true)
    (h1 : 1 ≤ l.length) (h9 : l.length ≤ 9) :
    matchWindowOpt ws l = some ⟨[], l⟩ := by
  obtain ⟨c, t, rfl⟩ : ∃ c t, l = c :: t := by
    cases l with
    | nil => simp at h1
    | cons c t => exact ⟨c, t, rfl⟩
  have hc : isDigitChar c = true := hd c (by simp)
  have hcb : ¬ c = '!' := ne_bang_of_isDigitChar hc
  have hrun : (c :: t).takeWhile isDigitChar = c :: t :=
    List.takeWhile_eq_self_iff.mpr hd
  have h9' : t.length ≤ 8 := by simpa using h9
  simp [matchWindowOpt, List.dropWhile_cons, hws c hc, stripNeg, hcb, hrun,
    List.drop_length, h9']

/-- A `!` followed immediately by a run of one to nine digits is accepted
by the matcher, capturing the negation marker. -/
theorem matchWindowOpt_bang_digit_run (ws : Char → Bool)
    (hws : ∀ c, isDigitChar c = true → ws c = false) (hwsb : ws '!' = false)
    (l : List Char) (hd : ∀ c ∈ l, isDigitChar c = true)
    (h1 : 1 ≤ l.length) (h9 : l.length ≤ 9) :
    matchWindowOpt ws ('!' :: l) = some ⟨['!'], l⟩ := by
  obtain ⟨c, t, rfl⟩ : ∃ c t, l = c :: t := by
    cases l with
    | nil => simp at h1
    | cons c t => exact ⟨c, t, rfl⟩
  have hc : isDigitChar c = true := hd c (by simp)
  have hrun : (c :: t).takeWhile isDigitChar = c :: t :=
    List.takeWhile_eq_self_iff.mpr hd
  have h9' : t.length ≤ 8 := by simpa using h9
  simp [matchWindowOpt, List.dropWhile_cons, hwsb, stripNeg, hws c hc, hrun,
    List.drop_length, h9']

/-! ## Claim theorems -/

/-- Claim C1: for every predicate attached to the match node and every TCP
packet, `DetectWindowMatch` returns 1 exactly when the packet's window size
equals the predicate's threshold (when `negated = 0`), respectively exactly
when it differs from the threshold (when `negated = 1`). -/
theorem detectWindowMatch_equality_semantics
    (t : Option ThreadVars) (det_ctx : Option DetectEngineThreadCtx)
    (p : Packet) (s : Option Signature) (m : SigMatch) (wd : DetectWindowData)
    (hctx : m.ctx = some wd) (htcp : p.isTcp = true) :
    (wd.negated = 0 → (DetectWindowMatch t det_ctx p s m = 1 ↔ p.tcpWindow = wd.size)) ∧
    (wd.negated = 1 → (DetectWindowMatch t det_ctx p s m = 1 ↔ p.tcpWindow ≠ wd.size)) := by
  simp only [DetectWindowMatch, hctx, htcp]
  constructor <;> intro hn <;> by_cases hw : wd.size = p.tcpWindow <;>
    simp [hn, hw] <;> omega

/-- Claim C1 witness: a TCP packet with window 190 against thresholds
190 (plain) and 117 (negated). -/
theorem detectWindowMatch_equality_semantics_witness :
    ((SigMatch.mk 0 (some ⟨0, 190⟩)).ctx = some ⟨0, 190⟩) ∧
    ((Packet.mk true 190 []).isTcp = true) ∧
    ((0 : Nat) = 0 →
      (DetectWindowMatch none none ⟨true, 190, []⟩ none ⟨0, some ⟨0, 190⟩⟩ = 1 ↔
        (190 : Nat) = 190)) :=
  ⟨rfl, rfl,
    (detectWindowMatch_equality_semantics none none ⟨true, 190, []⟩ none
      ⟨0, some ⟨0, 190⟩⟩ ⟨0, 190⟩ rfl rfl).1⟩

/-- Claim C2: no predicate, negated or not, matches a non-TCP packet:
`DetectWindowMatch` returns 0 whenever the packet's protocol tag is not
TCP. -/
theorem detectWindowMatch_non_tcp
    (t : Option ThreadVars) (det_ctx : Option DetectEngineThreadCtx)
    (p : Packet) (s : Option Signature) (m : SigMatch) (wd : DetectWindowData)
    (hctx : m.ctx = some wd) (htcp : p.isTcp = false) :
    DetectWindowMatch t det_ctx p s m = 0 := by
  simp [DetectWindowMatch, hctx, htcp]

/-- Claim C2 witness: a negated predicate against a non-TCP packet whose
window field would otherwise differ from the threshold. -/
theorem detectWindowMatch_non_tcp_witness :
    ((SigMatch.mk 0 (some ⟨1, 117⟩)).ctx = some ⟨1, 117⟩) ∧
    ((Packet.mk false 190 []).isTcp = false) ∧
    DetectWindowMatch none none ⟨false, 190, []⟩ none ⟨0, some ⟨1, 117⟩⟩ = 0 :=
  ⟨rfl, rfl,
    detectWindowMatch_non_tcp none none ⟨false, 190, []⟩ none
      ⟨0, some ⟨1, 117⟩⟩ ⟨1, 117⟩ rfl rfl⟩

/-- Claim C9: a match node whose predicate context is null yields 0 (no
match) on every packet, TCP or not. -/
theorem detectWindowMatch_null_ctx
    (t : Option ThreadVars) (det_ctx : Option DetectEngineThreadCtx)
    (p : Packet) (s : Option Signature) (m : SigMatch)
    (hctx : m.ctx = none) :
    DetectWindowMatch t det_ctx p s m = 0 := by
  simp [DetectWindowMatch, hctx]

/-- Claim C9 witness: a null predicate context on a TCP packet. -/
theorem detectWindowMatch_null_ctx_witness :
    ((SigMatch.mk 0 none).ctx = none) ∧
    DetectWindowMatch none none ⟨true, 190, []⟩ none ⟨0, none⟩ = 0 :=
  ⟨rfl, detectWindowMatch_null_ctx none none ⟨true, 190, []⟩ none ⟨0, none⟩ rfl⟩

/-- Claim C10: the match result depends only on the predicate's `negated`
and `size` fields and the packet's TCP tag and window field; the thread
vars, thread context and signature arguments (nullable) and every other
packet field are immaterial. -/
theorem detectWindowMatch_depends_only_on_fields
    (t1 t2 : Option ThreadVars) (d1 d2 : Option DetectEngineThreadCtx)
    (p1 p2 : Packet) (s1 s2 : Option Signature) (m1 m2 : SigMatch)
    (wd1 wd2 : DetectWindowData)
    (h1 : m1.ctx = some wd1) (h2 : m2.ctx = some wd2)
    (hneg : wd1.negated = wd2.negated) (hsize : wd1.size = wd2.size)
    (htcp : p1.isTcp = p2.isTcp) (hwin : p1.tcpWindow = p2.tcpWindow) :
    DetectWindowMatch t1 d1 p1 s1 m1 = DetectWindowMatch t2 d2 p2 s2 m2 := by
  simp only [DetectWindowMatch, h1, h2, hneg, hsize, htcp, hwin]

/-- Claim C3: every string of one to nine decimal digits whose value is at
most 65535 parses to a non-negated predicate carrying that value, and the
same string prefixed with `!` parses to the negated predicate with the
same value. -/
theorem detectWindowParse_valid_digits (l : List Char)
    (hd : ∀ c ∈ l, isDigitChar c = true) (h1 : 1 ≤ l.length) (h9 : l.length ≤ 9)
    (hv : digitsVal l ≤ 65535) :
    DetectWindowParseChars l = some ⟨0, digitsVal l⟩ ∧
    DetectWindowParseChars ('!' :: l) = some ⟨1, digitsVal l⟩ := by
  have hm := matchWindowOpt_digit_run isPcreSpace
    (fun c h => isPcreSpace_eq_false_of_isDigitChar h) l hd h1 h9
  have hb := matchWindowOpt_bang_digit_run isPcreSpace
    (fun c h => isPcreSpace_eq_false_of_isDigitChar h) (by decide) l hd h1 h9
  have hnotgt : ¬ digitsVal l > MAX_WINDOW_VALUE := by
    simp only [MAX_WINDOW_VALUE]
    omega
  constructor
  · simp [DetectWindowParseChars, pcreExecWindow, hm, hnotgt]
  · simp [DetectWindowParseChars, pcreExecWindow, hb, hnotgt]

/-- Claim C3 witness: the concrete digit string `35402` of the module's
own unit tests, plain and negated. -/
theorem detectWindowParse_valid_digits_witness :
    (∀ c ∈ "35402".data, isDigitChar c = true) ∧
    digitsVal "35402".data ≤ 65535 ∧
    DetectWindowParseChars "35402".data = some ⟨0, digitsVal "35402".data⟩ ∧
    DetectWindowParseChars ('!' :: "35402".data) = some ⟨1, digitsVal "35402".data⟩ := by
  refine ⟨by decide, by decide, ?_⟩
  exact detectWindowParse_valid_digits "35402".data (by decide) (by decide)
    (by decide) (by decide)

/-- Claim C4: every string of one to nine decimal digits whose value
exceeds `MAX_WINDOW_VALUE` matches the grammar (so the failure is the
range check, not a syntax failure) yet the parser rejects it. -/
theorem detectWindowParse_out_of_range (l : List Char)
    (hd : ∀ c ∈ l, isDigitChar c = true) (h1 : 1 ≤ l.length) (h9 : l.length ≤ 9)
    (hv : digitsVal l > MAX_WINDOW_VALUE) :
    pcreExecWindow l = some ⟨[], l⟩ ∧ DetectWindowParseChars l = none := by
  have hm := matchWindowOpt_digit_run isPcreSpace
    (fun c h => isPcreSpace_eq_false_of_isDigitChar h) l hd h1 h9
  refine ⟨hm, ?_⟩
  simp [DetectWindowParseChars, pcreExecWindow, hm, hv]

/-- Claim C4 witness: the unit tests' concrete over-range input
`1235402`. -/
theorem detectWindowParse_out_of_range_witness :
    (∀ c ∈ "1235402".data, isDigitChar c = true) ∧
    digitsVal "1235402".data > MAX_WINDOW_VALUE ∧
    pcreExecWindow "1235402".data = some ⟨[], "1235402".data⟩ ∧
    DetectWindowParseChars "1235402".data = none := by
  refine ⟨by decide, by decide, ?_⟩
  exact detectWindowParse_out_of_range "1235402".data (by decide) (by decide)
    (by decide) (by decide)

/-- Claim C5 counterexample: the input `"\t5"` (tab, then a digit) does
not match the spec's grammar when `ws` is the single space character, yet
the code accepts it — PCRE's `\s` also matches the tab — so the claim
"every input outside the space-only grammar fails" is false as stated. -/
theorem detectWindowParse_space_only_grammar_cex :
    specGrammarAccepts isSpaceOnly ['\t', '5'] = false ∧
    DetectWindowParseChars ['\t', '5'] = some ⟨0, 5⟩ := by
  constructor
  · decide
  · decide

/-- Claim C5 (amended): every input text that does not match the grammar
`window-option := ws* negation? ws* digits ws*` — with `ws` one of the PCRE
whitespace characters space, tab, line feed, form feed, carriage return —
is rejected by the parser (NULL return).  This covers the empty string,
leading or trailing garbage, missing digits, and digit runs longer than
nine digits. -/
theorem detectWindowParse_rejects_grammar_mismatch (l : List Char)
    (h : specGrammarAccepts isPcreSpace l = false) :
    DetectWindowParseChars l = none := by
  cases hm : pcreExecWindow l with
  | none => simp [DetectWindowParseChars, hm]
  | some caps =>
    exfalso
    unfold pcreExecWindow at hm
    unfold specGrammarAccepts at h
    rw [hm] at h
    simp at h

/-- Claim C5 witness: the empty string (no digits) is outside the grammar
and rejected. -/
theorem detectWindowParse_rejects_grammar_mismatch_witness :
    specGrammarAccepts isPcreSpace "".data = false ∧
    DetectWindowParseChars "".data = none :=
  ⟨by decide, detectWindowParse_rejects_grammar_mismatch "".data (by decide)⟩

/-- Claim C6: every predicate an accepting run of the parser returns has
its size within `[0, MAX_WINDOW_VALUE]` and its negated flag equal to 0 or
1. -/
theorem detectWindowParse_invariant (l : List Char) (wd : DetectWindowData)
    (h : DetectWindowParseChars l = some wd) :
    wd.size ≤ MAX_WINDOW_VALUE ∧ (wd.negated = 0 ∨ wd.negated = 1) := by
  unfold DetectWindowParseChars at h
  cases hm : pcreExecWindow l with
  | none => rw [hm] at h; cases h
  | some caps =>
    rw [hm] at h
    simp only at h
    by_cases hgt : digitsVal caps.digits > MAX_WINDOW_VALUE
    · rw [if_pos hgt] at h; cases h
    · rw [if_neg hgt] at h
      injection h with h'
      subst h'
      refine ⟨by simpa using Nat.le_of_not_lt hgt, ?_⟩
      by_cases hneg : caps.neg.head? = some '!'
      · right; simp [hneg]
      · left; simp [hneg]

/-- Claim C6 witness: the parsed predicate of `35402` satisfies the
invariant. -/
theorem detectWindowParse_invariant_witness :
    DetectWindowParseChars "35402".data = some ⟨0, 35402⟩ ∧
    (35402 ≤ MAX_WINDOW_VALUE ∧ ((0 : Nat) = 0 ∨ (0 : Nat) = 1)) :=
  ⟨by decide, detectWindowParse_invariant "35402".data ⟨0, 35402⟩ (by decide)⟩

/-- Claim C7 counterexample: a syntax failure (the empty string, which the
regex rejects) and a range failure (`1235402`, which the regex accepts but
the range check rejects) produce the very same caller-visible result,
NULL — the C parser returns NULL on both error paths, so the two failure
kinds are not distinguishable outcomes to the caller. -/
theorem detectWindowParse_failure_kinds_cex :
    pcreExecWindow "".data = none ∧
    (pcreExecWindow "1235402".data = some ⟨[], "1235402".data⟩ ∧
      digitsVal "1235402".data > MAX_WINDOW_VALUE) ∧
    DetectWindowParse "" = DetectWindowParse "1235402" := by
  refine ⟨by decide, ⟨by decide, by decide⟩, by decide⟩

/-- Claim C7 (amended): on every input on which the compiler fails —
whether the grammar match fails or the parsed value exceeds
`MAX_WINDOW_VALUE` — it returns NULL, a single failure value that does not
identify the failure kind, and no partial predicate survives the call. -/
theorem detectWindowParse_failure_returns_none (l : List Char)
    (h : pcreExecWindow l = none ∨
      ∃ caps, pcreExecWindow l = some caps ∧ digitsVal caps.digits > MAX_WINDOW_VALUE) :
    DetectWindowParseChars l = none := by
  rcases h with h | ⟨caps, hc, hgt⟩
  · simp [DetectWindowParseChars, h]
  · simp [DetectWindowParseChars, hc, hgt]

/-- Claim C7 witness: the over-range input `1235402`. -/
theorem detectWindowParse_failure_returns_none_witness :
    (pcreExecWindow "1235402".data = some ⟨[], "1235402".data⟩ ∧
      digitsVal "1235402".data > MAX_WINDOW_VALUE) ∧
    DetectWindowParseChars "1235402".data = none :=
  ⟨⟨by decide, by decide⟩,
    detectWindowParse_failure_returns_none "1235402".data
      (Or.inr ⟨⟨[], "1235402".data⟩, by decide, by decide⟩)⟩

/-- Claim C8: whenever the parser rejects the option text, the setup
function returns -1 and leaves the signature — its predicate list
included — exactly as it was: no partial node is appended on the error
path. -/
theorem detectWindowSetup_error_path (de_ctx : Option DetectEngineCtx)
    (s : Signature) (m : Option SigMatch) (windowstr : List Char)
    (h : DetectWindowParseChars windowstr = none) :
    DetectWindowSetup de_ctx s m windowstr = (s, -1) := by
  simp [DetectWindowSetup, h]

/-- Claim C8 witness: setup on the empty option string leaves a signature
with one existing predicate node untouched and reports failure. -/
theorem detectWindowSetup_error_path_witness :
    DetectWindowParseChars "".data = none ∧
    DetectWindowSetup none ⟨1, [⟨0, some ⟨0, 5⟩⟩]⟩ none "".data =
      (⟨1, [⟨0, some ⟨0, 5⟩⟩]⟩, -1) :=
  ⟨by decide,
    detectWindowSetup_error_path none ⟨1, [⟨0, some ⟨0, 5⟩⟩]⟩ none "".data (by decide)⟩

/-- Claim C10 witness: two invocations agreeing only on the four relevant
values, with different thread vars, thread contexts, signatures, node tags
and packet remainders. -/
theorem detectWindowMatch_depends_only_on_fields_witness :
    DetectWindowMatch (some ⟨7⟩) none ⟨true, 190, [1, 2]⟩ (some ⟨3, []⟩)
        ⟨0, some ⟨1, 117⟩⟩ =
      DetectWindowMatch none (some ⟨9⟩) ⟨true, 190, []⟩ none
        ⟨5, some ⟨1, 117⟩⟩ :=
  detectWindowMatch_depends_only_on_fields (some ⟨7⟩) none none (some ⟨9⟩)
    ⟨true, 190, [1, 2]⟩ ⟨true, 190, []⟩ (some ⟨3, []⟩) none
    ⟨0, some ⟨1, 117⟩⟩ ⟨5, some ⟨1, 117⟩⟩ ⟨1, 117⟩ ⟨1, 117⟩
    rfl rfl rfl rfl rfl rfl

end Suricata
